import Mathlib

/-!
Shallow embedding of the WholeMemory partitioned distributed-memory handle
subsystem, after `src/cpp/include/wholememory/wholememory.h`.

The repository ships only the public header: the error-code enum
(`wholememory_error_code_t`, lines 32-43) and the
`WHOLEMEMORY_RETURN_ON_FAIL` macro (lines 45-53) are real code and are
embedded directly.  The bodies of the declared functions
(`wholememory_determine_partition_plan`, `wholememory_get_global_pointer`,
`wholememory_load_from_file`, ...) are not part of the sources, so those
operations are modelled from the design document's description of their
behaviour; each such definition says so in its doc comment.

Sizes, offsets and entry counts are `size_t` values; they are embedded as
`Nat` (the C type is unsigned and the design works with exact values, no
overflow semantics are relied upon).  `world_size` is a C `int` and is
embedded as `Int` so that the documented `world_size <= 0` failure case is
representable.  Fallible operations return `Except wholememory_error_code_t`.
-/

deriving instance DecidableEq for Except

/-- Error codes of the library, from `wholememory_error_code_t`
(wholememory.h lines 32-43).  `WHOLEMEMORY_SUCCESS` is the first enumerator
and carries value 0; the later enumerators take the successive values. -/
inductive wholememory_error_code_t where
  | WHOLEMEMORY_SUCCESS
  | WHOLEMEMORY_UNKNOW_ERROR
  | WHOLEMEMORY_NOT_IMPLEMENTED
  | WHOLEMEMORY_LOGIC_ERROR
  | WHOLEMEMORY_CUDA_ERROR
  | WHOLEMEMORY_COMMUNICATION_ERROR
  | WHOLEMEMORY_INVALID_INPUT
  | WHOLEMEMORY_INVALID_VALUE
  | WHOLEMEMORY_OUT_OF_MEMORY
  | WHOLEMEMORY_NOT_SUPPORTED
  deriving DecidableEq, Repr, Fintype

/-- Numeric value of each enumerator of `wholememory_error_code_t`: the C
enum starts at `WHOLEMEMORY_SUCCESS = 0` and increments. -/
def errorCodeVal : wholememory_error_code_t → Nat
  | .WHOLEMEMORY_SUCCESS => 0
  | .WHOLEMEMORY_UNKNOW_ERROR => 1
  | .WHOLEMEMORY_NOT_IMPLEMENTED => 2
  | .WHOLEMEMORY_LOGIC_ERROR => 3
  | .WHOLEMEMORY_CUDA_ERROR => 4
  | .WHOLEMEMORY_COMMUNICATION_ERROR => 5
  | .WHOLEMEMORY_INVALID_INPUT => 6
  | .WHOLEMEMORY_INVALID_VALUE => 7
  | .WHOLEMEMORY_OUT_OF_MEMORY => 8
  | .WHOLEMEMORY_NOT_SUPPORTED => 9

/-- The ten error codes, in their declaration order in wholememory.h. -/
def wholememory_error_code_values : List wholememory_error_code_t :=
  [.WHOLEMEMORY_SUCCESS, .WHOLEMEMORY_UNKNOW_ERROR, .WHOLEMEMORY_NOT_IMPLEMENTED,
   .WHOLEMEMORY_LOGIC_ERROR, .WHOLEMEMORY_CUDA_ERROR, .WHOLEMEMORY_COMMUNICATION_ERROR,
   .WHOLEMEMORY_INVALID_INPUT, .WHOLEMEMORY_INVALID_VALUE, .WHOLEMEMORY_OUT_OF_MEMORY,
   .WHOLEMEMORY_NOT_SUPPORTED]

/-- Memory address-mapping type of a WholeMemory allocation, from
`wholememory_memory_type_t` (wholememory.h lines 60-65). -/
inductive wholememory_memory_type_t where
  | WHOLEMEMORY_MT_NONE
  | WHOLEMEMORY_MT_CONTINUOUS
  | WHOLEMEMORY_MT_CHUNKED
  | WHOLEMEMORY_MT_DISTRIBUTED
  deriving DecidableEq, Repr

/-- Memory placement of a WholeMemory allocation, from
`wholememory_memory_location_t` (wholememory.h lines 72-76). -/
inductive wholememory_memory_location_t where
  | WHOLEMEMORY_ML_NONE
  | WHOLEMEMORY_ML_DEVICE
  | WHOLEMEMORY_ML_HOST
  deriving DecidableEq, Repr

/-- Modelled from the spec: the body of the partition planner is not among
the sources (only its declaration, wholememory.h lines 312-327).  Section
4.1 of the design: with `base = units / world_size` and
`rem = units % world_size`, ranks `0..rem-1` receive `base+1` granularity
units and ranks `rem..world_size-1` receive `base` units.  This function
gives the unit count assigned to rank `r`. -/
def rank_unit_count (total_units world_size r : Nat) : Nat :=
  if r < total_units % world_size then total_units / world_size + 1
  else total_units / world_size

/-- Byte size of rank `r`'s partition: its unit count times the data
granularity, where the unit count is taken over `total_size / data_granularity`
units (design section 4.1). -/
def rank_partition_size (total_size data_granularity world_size r : Nat) : Nat :=
  rank_unit_count (total_size / data_granularity) world_size r * data_granularity

/-- Byte offset of rank `r`'s partition inside the allocation: the sizes of
ranks `0..r-1` summed, in closed form (`r` full `base` blocks plus one extra
unit for every lower rank below `rem`). -/
def rank_partition_offset (total_size data_granularity world_size r : Nat) : Nat :=
  (total_size / data_granularity / world_size * r +
    min r (total_size / data_granularity % world_size)) * data_granularity

/-- Modelled from the spec: the body of
`wholememory_determine_entry_partition_plan` (declared at wholememory.h
lines 325-327) is not among the sources.  Design section 4.1: fails with
`WHOLEMEMORY_INVALID_VALUE` when `world_size <= 0`; otherwise returns the
maximum per-rank entry count of the remainder-to-lowest-ranks scheme, which
rank 0 always attains. -/
def wholememory_determine_entry_partition_plan (total_entry_count : Nat)
    (world_size : Int) : Except wholememory_error_code_t Nat :=
  if world_size ≤ 0 then .error .WHOLEMEMORY_INVALID_VALUE
  else .ok (rank_unit_count total_entry_count world_size.toNat 0)

/-- Modelled from the spec: the body of `wholememory_determine_partition_plan`
(declared at wholememory.h lines 312-315) is not among the sources.  Design
section 4.1 and 8: fails with `WHOLEMEMORY_INVALID_VALUE` when
`data_granularity == 0`, `world_size <= 0`, or `total_size` is not divisible
by `data_granularity`; otherwise returns `size_per_rank`, the maximum
per-rank byte size of the scheme (attained by rank 0), which callers use to
size uniform buffers. -/
def wholememory_determine_partition_plan (total_size data_granularity : Nat)
    (world_size : Int) : Except wholememory_error_code_t Nat :=
  if data_granularity = 0 then .error .WHOLEMEMORY_INVALID_VALUE
  else if world_size ≤ 0 then .error .WHOLEMEMORY_INVALID_VALUE
  else if total_size % data_granularity ≠ 0 then .error .WHOLEMEMORY_INVALID_VALUE
  else
    .ok (rank_unit_count (total_size / data_granularity) world_size.toNat 0 *
      data_granularity)

/-- Modelled from the spec: the layout state behind the opaque
`wholememory_handle_t` (wholememory.h line 188) is not among the sources.
Design section 3, DistributedMemoryHandle: total size, memory type, memory
location, data granularity, and (through its communicator) the calling
rank's identity and the world size. -/
structure wholememory_handle_ where
  total_size : Nat
  memory_type : wholememory_memory_type_t
  memory_location : wholememory_memory_location_t
  data_granularity : Nat
  comm_rank : Nat
  comm_world_size : Nat
  deriving DecidableEq, Repr

/-- A live handle is one produced by a successful collective allocation:
its type and location are defined (design section 3 lists only continuous,
chunked and distributed types and device and host locations) and the
communicator invariant `0 <= rank < world_size` holds. -/
def wholememory_handle_.live (h : wholememory_handle_) : Prop :=
  h.memory_type ≠ .WHOLEMEMORY_MT_NONE ∧
  h.memory_location ≠ .WHOLEMEMORY_ML_NONE ∧
  h.comm_rank < h.comm_world_size

instance (h : wholememory_handle_) : Decidable h.live := by
  unfold wholememory_handle_.live; infer_instance

/-- Modelled from the spec: the body of `wholememory_get_global_pointer`
(declared at wholememory.h lines 291-292) is not among the sources.  Design
section 4.3: fails with NotSupported unless the type is `continuous`, or
the type is `chunked` and the location is `host`.  The pointer itself is a
machine address outside the embedding, so success carries `Unit`. -/
def wholememory_get_global_pointer (h : wholememory_handle_) :
    Except wholememory_error_code_t Unit :=
  if h.memory_type = .WHOLEMEMORY_MT_CONTINUOUS ∨
     (h.memory_type = .WHOLEMEMORY_MT_CHUNKED ∧
      h.memory_location = .WHOLEMEMORY_ML_HOST) then
    .ok ()
  else .error .WHOLEMEMORY_NOT_SUPPORTED

/-- Modelled from the spec: the body of `wholememory_get_global_reference`
(declared at wholememory.h lines 301-302) is not among the sources.  Design
section 4.3: the global reference is valid for `continuous` and `chunked`
types and fails with NotSupported for `distributed`.  The reference value
holds raw base pointers outside the embedding, so success carries `Unit`. -/
def wholememory_get_global_reference (h : wholememory_handle_) :
    Except wholememory_error_code_t Unit :=
  if h.memory_type = .WHOLEMEMORY_MT_CONTINUOUS ∨
     h.memory_type = .WHOLEMEMORY_MT_CHUNKED then
    .ok ()
  else .error .WHOLEMEMORY_NOT_SUPPORTED

/-- Modelled from the spec: the body of `wholememory_get_rank_memory`
(declared at wholememory.h lines 278-282) is not among the sources.  Design
section 4.3: pointer/size/offset for a named rank; fails with NotSupported
for `distributed` type when the rank is not the caller's own.  The pointer
is a machine address outside the embedding; the returned pair is the byte
size and byte offset of the named rank's partition. -/
def wholememory_get_rank_memory (h : wholememory_handle_) (rank : Nat) :
    Except wholememory_error_code_t (Nat × Nat) :=
  if h.memory_type = .WHOLEMEMORY_MT_DISTRIBUTED ∧ rank ≠ h.comm_rank then
    .error .WHOLEMEMORY_NOT_SUPPORTED
  else
    .ok (rank_partition_size h.total_size h.data_granularity h.comm_world_size rank,
         rank_partition_offset h.total_size h.data_granularity h.comm_world_size rank)

/-- Modelled from the spec: the entry-striding effect of a successful load
(design section 4.5).  Memory is a byte map `Nat → Nat`; `data` is the
logical concatenation of the given files.  Entry `e`, byte `j < file_entry_size`
of the file data lands at address
`memory_offset + e * memory_entry_size + j`; every other address keeps its
previous contents. -/
def load_entries (mem : Nat → Nat) (memory_offset memory_entry_size
    file_entry_size : Nat) (data : List Nat) : Nat → Nat :=
  fun a =>
    if memory_offset ≤ a then
      if (a - memory_offset) % memory_entry_size < file_entry_size ∧
         (a - memory_offset) / memory_entry_size * file_entry_size +
           (a - memory_offset) % memory_entry_size < data.length then
        data.getD ((a - memory_offset) / memory_entry_size * file_entry_size +
          (a - memory_offset) % memory_entry_size) 0
      else mem a
    else mem a

/-- Modelled from the spec: the body of `wholememory_load_from_file`
(declared at wholememory.h lines 354-359) is not among the sources.  Design
section 4.5: fails with InvalidInput if `file_entry_size > memory_entry_size`;
otherwise each logical entry's first `file_entry_size` bytes are written
from the concatenated file data and the bytes beyond are left untouched.
File names and raw I/O are outside the embedding, so the files appear as
their concatenated contents `data`. -/
def wholememory_load_from_file (mem : Nat → Nat) (memory_offset
    memory_entry_size file_entry_size : Nat) (data : List Nat) :
    Except wholememory_error_code_t (Nat → Nat) :=
  if memory_entry_size < file_entry_size then .error .WHOLEMEMORY_INVALID_INPUT
  else .ok (load_entries mem memory_offset memory_entry_size file_entry_size data)

/-- The `WHOLEMEMORY_RETURN_ON_FAIL` macro (wholememory.h lines 45-53)
binds `auto err = X` once, falls through when `err` is
`WHOLEMEMORY_SUCCESS`, and otherwise makes the enclosing function return
`err` (after an `fprintf` diagnostic, which is I/O outside the embedding).
The expression `X` is embedded as a state transformer `σ → σ × code`
so that single evaluation is visible: the macro applies it exactly once.
Fall-through is `Except.ok ()`, early return of `err` is `Except.error err`. -/
def WHOLEMEMORY_RETURN_ON_FAIL {σ : Type} (X : σ → σ × wholememory_error_code_t)
    (s : σ) : σ × Except wholememory_error_code_t Unit :=
  let p := X s
  (p.1, if p.2 = .WHOLEMEMORY_SUCCESS then Except.ok () else Except.error p.2)

lemma rank_unit_count_eq_add_ite (E ws r : Nat) :
    rank_unit_count E ws r = E / ws + (if r < E % ws then 1 else 0) := by
  unfold rank_unit_count
  split <;> omega

/-- Summing the per-rank unit counts over all `ws` ranks recovers the total
number of units: `rem` ranks contribute `base + 1` and the other `ws - rem`
ranks contribute `base`, and `base * ws + rem = E`. -/
lemma sum_rank_unit_count (E ws : Nat) (hws : 0 < ws) :
    (Finset.range ws).sum (rank_unit_count E ws) = E := by
  have hrem : E % ws < ws := Nat.mod_lt _ hws
  have hsplit : (Finset.range ws).sum (rank_unit_count E ws) =
      (Finset.range ws).sum (fun r => E / ws + (if r < E % ws then 1 else 0)) :=
    Finset.sum_congr rfl fun r _ => rank_unit_count_eq_add_ite E ws r
  rw [hsplit, Finset.sum_add_distrib, Finset.sum_const, Finset.card_range,
    smul_eq_mul]
  simp only [Finset.sum_boole, Nat.cast_id]
  have hfilter : (Finset.range ws).filter (fun r => r < E % ws) =
      Finset.range (E % ws) := by
    ext r
    simp only [Finset.mem_filter, Finset.mem_range]
    omega
  rw [hfilter, Finset.card_range]
  have := Nat.div_add_mod E ws
  omega

lemma determine_partition_plan_error_iff (total granularity : Nat)
    (world_size : Int) :
    wholememory_determine_partition_plan total granularity world_size =
      .error .WHOLEMEMORY_INVALID_VALUE ↔
    (granularity = 0 ∨ world_size ≤ 0 ∨ total % granularity ≠ 0) := by
  unfold wholememory_determine_partition_plan
  split_ifs with h1 h2 h3 <;> simp_all

/-- C2: for every accepted input, the per-rank partition sizes, each a pure
function of `(total, granularity, world_size, rank)` computable locally,
sum to exactly the total size, and every rank's partition size is a
multiple of the granularity. -/
theorem partition_plan_sum_eq_total (total granularity ws : Nat)
    (hg : 0 < granularity) (hws : 1 ≤ ws) (hdvd : total % granularity = 0) :
    (Finset.range ws).sum
        (fun r => rank_partition_size total granularity ws r) = total ∧
    ∀ r, rank_partition_size total granularity ws r % granularity = 0 := by
  constructor
  · unfold rank_partition_size
    rw [← Finset.sum_mul, sum_rank_unit_count _ _ hws,
      Nat.div_mul_cancel (Nat.dvd_of_mod_eq_zero hdvd)]
  · intro r
    unfold rank_partition_size
    exact Nat.mul_mod_left _ _

theorem partition_plan_sum_eq_total_witness :
    (Finset.range 3).sum (fun r => rank_partition_size 8 2 3 r) = 8 ∧
    ∀ r, rank_partition_size 8 2 3 r % 2 = 0 :=
  partition_plan_sum_eq_total 8 2 3 (by decide) (by decide) (by decide)

/-- C3: the two concrete scenarios of design section 8.  The byte planner
at `total_size = 1024`, `data_granularity = 256`, `world_size = 4` returns
`size_per_rank = 256` and every rank's partition is 256 bytes; the entry
planner at `total_entry_count = 10`, `world_size = 3` returns 4 and the
plan assigns rank 0 four entries and ranks 1 and 2 three entries each,
totalling 10. -/
theorem partition_plan_concrete_scenarios :
    wholememory_determine_partition_plan 1024 256 4 = .ok 256 ∧
    rank_partition_size 1024 256 4 0 = 256 ∧
    rank_partition_size 1024 256 4 1 = 256 ∧
    rank_partition_size 1024 256 4 2 = 256 ∧
    rank_partition_size 1024 256 4 3 = 256 ∧
    wholememory_determine_entry_partition_plan 10 3 = .ok 4 ∧
    rank_unit_count 10 3 0 = 4 ∧
    rank_unit_count 10 3 1 = 3 ∧
    rank_unit_count 10 3 2 = 3 ∧
    rank_unit_count 10 3 0 + rank_unit_count 10 3 1 + rank_unit_count 10 3 2 = 10 := by
  decide

/-- C1 as stated is false at `total_size = 1024`, `data_granularity = 256`,
`world_size = 4` (the spec's own concrete scenario): the remainder
`G % world_size` is 0 there, the planner returns the maximum per-rank size
256, and `(base + 1) * granularity = 512` is not what is returned. -/
theorem partition_plan_size_per_rank_formula_cex :
    wholememory_determine_partition_plan 1024 256 4 = .ok 256 ∧
    (1024 / 256 / 4 + 1) * 256 = 512 ∧
    wholememory_determine_partition_plan 1024 256 4 ≠
      .ok ((1024 / 256 / 4 + 1) * 256) := by
  decide

/-- C1 (amended): for every accepted input, with `G = total / granularity`,
`base = G / world_size`, `rem = G % world_size`: ranks below `rem` are
assigned `base + 1` granularity units, ranks from `rem` on are assigned
`base` units, and the returned `size_per_rank` is the maximum per-rank size
in bytes — `(base + 1) * granularity` when `rem > 0`, and
`base * granularity` when `rem = 0`. -/
theorem partition_plan_remainder_to_lowest_ranks (total granularity ws : Nat)
    (hg : 0 < granularity) (hws : 1 ≤ ws) (hdvd : total % granularity = 0) :
    (∀ r, r < total / granularity % ws →
      rank_unit_count (total / granularity) ws r = total / granularity / ws + 1) ∧
    (∀ r, total / granularity % ws ≤ r →
      rank_unit_count (total / granularity) ws r = total / granularity / ws) ∧
    wholememory_determine_partition_plan total granularity (ws : Int) =
      .ok (rank_partition_size total granularity ws 0) ∧
    (∀ r, rank_partition_size total granularity ws r ≤
      rank_partition_size total granularity ws 0) ∧
    (0 < total / granularity % ws →
      rank_partition_size total granularity ws 0 =
        (total / granularity / ws + 1) * granularity) ∧
    (total / granularity % ws = 0 →
      rank_partition_size total granularity ws 0 =
        total / granularity / ws * granularity) := by
  refine ⟨fun r hr => ?_, fun r hr => ?_, ?_, fun r => ?_, fun hrem => ?_,
    fun hrem => ?_⟩
  · unfold rank_unit_count
    rw [if_pos hr]
  · unfold rank_unit_count
    rw [if_neg (Nat.not_lt.mpr hr)]
  · unfold wholememory_determine_partition_plan
    split_ifs with h1 h2 h3
    · exact absurd h1 (by omega)
    · exfalso; omega
    · exact absurd hdvd h3
    · unfold rank_partition_size
      congr 2
  · unfold rank_partition_size
    have hle : rank_unit_count (total / granularity) ws r ≤
        rank_unit_count (total / granularity) ws 0 := by
      unfold rank_unit_count
      split_ifs <;> omega
    exact Nat.mul_le_mul_right _ hle
  · unfold rank_partition_size rank_unit_count
    rw [if_pos hrem]
  · unfold rank_partition_size rank_unit_count
    rw [if_neg (by omega)]

theorem partition_plan_remainder_to_lowest_ranks_witness :
    rank_unit_count (10 / 1) 3 0 = 10 / 1 / 3 + 1 ∧
    rank_unit_count (10 / 1) 3 2 = 10 / 1 / 3 ∧
    wholememory_determine_partition_plan 10 1 3 =
      .ok (rank_partition_size 10 1 3 0) ∧
    rank_partition_size 10 1 3 0 = (10 / 1 / 3 + 1) * 1 :=
  ⟨(partition_plan_remainder_to_lowest_ranks 10 1 3 (by decide) (by decide)
      (by decide)).1 0 (by decide),
   (partition_plan_remainder_to_lowest_ranks 10 1 3 (by decide) (by decide)
      (by decide)).2.1 2 (by decide),
   (partition_plan_remainder_to_lowest_ranks 10 1 3 (by decide) (by decide)
      (by decide)).2.2.1,
   (partition_plan_remainder_to_lowest_ranks 10 1 3 (by decide) (by decide)
      (by decide)).2.2.2.2.1 (by decide)⟩

/-- C4 as stated is false: for `total_size = 10`, `data_granularity = 1`,
`world_size = 3` the realized per-rank sizes are 4, 3, 3 — ranks 0 and 1
differ although rank 1 is not the last rank, so sizes are not "equal for
all ranks except possibly the last". -/
theorem partition_sizes_equal_except_last_cex :
    rank_partition_size 10 1 3 0 = 4 ∧
    rank_partition_size 10 1 3 1 = 3 ∧
    rank_partition_size 10 1 3 2 = 3 ∧
    ¬ (∀ r, r + 1 < 3 →
        rank_partition_size 10 1 3 r = rank_partition_size 10 1 3 0) := by
  refine ⟨by decide, by decide, by decide, fun hall => ?_⟩
  exact absurd (hall 1 (by decide)) (by decide)

/-- C4 (amended): per-rank partition sizes are non-increasing in the rank
index and take at most two values, `base * granularity` and
`(base + 1) * granularity`; the ranks with the larger value are exactly
those below `rem = G % world_size`. -/
theorem partition_sizes_two_values_nonincreasing (total granularity ws : Nat)
    (hg : 0 < granularity) (hws : 1 ≤ ws) (hdvd : total % granularity = 0) :
    (∀ r s, r ≤ s → rank_partition_size total granularity ws s ≤
      rank_partition_size total granularity ws r) ∧
    (∀ r, rank_partition_size total granularity ws r =
        total / granularity / ws * granularity ∨
      rank_partition_size total granularity ws r =
        (total / granularity / ws + 1) * granularity) ∧
    (∀ r, rank_partition_size total granularity ws r =
        (total / granularity / ws + 1) * granularity ↔
      r < total / granularity % ws) := by
  refine ⟨fun r s hrs => ?_, fun r => ?_, fun r => ?_⟩
  · unfold rank_partition_size
    have hle : rank_unit_count (total / granularity) ws s ≤
        rank_unit_count (total / granularity) ws r := by
      unfold rank_unit_count
      split_ifs <;> omega
    exact Nat.mul_le_mul_right _ hle
  · unfold rank_partition_size rank_unit_count
    split_ifs
    · exact Or.inr rfl
    · exact Or.inl rfl
  · unfold rank_partition_size rank_unit_count
    split_ifs with hcond
    · simp [hcond]
    · simp only [hcond, iff_false]
      intro heq
      have := Nat.eq_of_mul_eq_mul_right hg heq
      omega

theorem partition_sizes_two_values_nonincreasing_witness :
    rank_partition_size 10 1 3 2 ≤ rank_partition_size 10 1 3 1 ∧
    (rank_partition_size 10 1 3 0 = (10 / 1 / 3 + 1) * 1 ↔ 0 < 10 / 1 % 3) :=
  ⟨(partition_sizes_two_values_nonincreasing 10 1 3 (by decide) (by decide)
      (by decide)).1 1 2 (by decide),
   (partition_sizes_two_values_nonincreasing 10 1 3 (by decide) (by decide)
      (by decide)).2.2 0⟩

/-- C5: the partition planner fails with `WHOLEMEMORY_INVALID_VALUE`
exactly when `data_granularity` is 0, `world_size <= 0`, or `total_size` is
not divisible by `data_granularity`; it never fails with any other code;
and in particular at `total_size = 100`, `data_granularity = 7` it fails
with `WHOLEMEMORY_INVALID_VALUE` for every world size. -/
theorem partition_plan_invalid_value_iff :
    (∀ (total granularity : Nat) (world_size : Int),
      wholememory_determine_partition_plan total granularity world_size =
        .error .WHOLEMEMORY_INVALID_VALUE ↔
      (granularity = 0 ∨ world_size ≤ 0 ∨ total % granularity ≠ 0)) ∧
    (∀ (total granularity : Nat) (world_size : Int)
      (c : wholememory_error_code_t),
      wholememory_determine_partition_plan total granularity world_size =
        .error c → c = .WHOLEMEMORY_INVALID_VALUE) ∧
    ∀ world_size : Int,
      wholememory_determine_partition_plan 100 7 world_size =
        .error .WHOLEMEMORY_INVALID_VALUE := by
  refine ⟨determine_partition_plan_error_iff, ?_, fun ws => ?_⟩
  · intro total granularity ws c hc
    unfold wholememory_determine_partition_plan at hc
    split_ifs at hc <;> simp_all
  · exact (determine_partition_plan_error_iff 100 7 ws).mpr
      (Or.inr (Or.inr (by decide)))

theorem partition_plan_invalid_value_iff_witness :
    wholememory_determine_partition_plan 100 7 4 =
      .error .WHOLEMEMORY_INVALID_VALUE :=
  partition_plan_invalid_value_iff.2.2 4

/-- C6: for every live handle, `wholememory_get_global_pointer` succeeds
exactly when the memory type is continuous, or the type is chunked and the
location is host, failing with NotSupported otherwise; and
`wholememory_get_global_reference` succeeds exactly when the type is
continuous or chunked, failing with NotSupported for distributed. -/
theorem global_pointer_reference_support (h : wholememory_handle_)
    (hl : h.live) :
    (wholememory_get_global_pointer h = .ok () ↔
      (h.memory_type = .WHOLEMEMORY_MT_CONTINUOUS ∨
       (h.memory_type = .WHOLEMEMORY_MT_CHUNKED ∧
        h.memory_location = .WHOLEMEMORY_ML_HOST))) ∧
    (wholememory_get_global_pointer h ≠ .ok () →
      wholememory_get_global_pointer h = .error .WHOLEMEMORY_NOT_SUPPORTED) ∧
    (wholememory_get_global_reference h = .ok () ↔
      (h.memory_type = .WHOLEMEMORY_MT_CONTINUOUS ∨
       h.memory_type = .WHOLEMEMORY_MT_CHUNKED)) ∧
    (h.memory_type = .WHOLEMEMORY_MT_DISTRIBUTED →
      wholememory_get_global_reference h = .error .WHOLEMEMORY_NOT_SUPPORTED) := by
  unfold wholememory_get_global_pointer wholememory_get_global_reference
  refine ⟨?_, ?_, ?_, ?_⟩
  · split_ifs with hc
    · exact iff_of_true rfl hc
    · exact iff_of_false (by simp) hc
  · split_ifs with hc
    · intro hne; exact absurd rfl hne
    · intro _; rfl
  · split_ifs with hc
    · exact iff_of_true rfl hc
    · exact iff_of_false (by simp) hc
  · intro hd
    split_ifs with hc
    · rw [hd] at hc
      rcases hc with hc | hc <;> exact absurd hc (by decide)
    · rfl

theorem global_pointer_reference_support_witness :
    wholememory_get_global_pointer
      ⟨1024, .WHOLEMEMORY_MT_CONTINUOUS, .WHOLEMEMORY_ML_DEVICE, 256, 0, 4⟩ =
      .ok () ∧
    wholememory_get_global_pointer
      ⟨1024, .WHOLEMEMORY_MT_CHUNKED, .WHOLEMEMORY_ML_DEVICE, 256, 0, 4⟩ =
      .error .WHOLEMEMORY_NOT_SUPPORTED ∧
    wholememory_get_global_reference
      ⟨1024, .WHOLEMEMORY_MT_DISTRIBUTED, .WHOLEMEMORY_ML_DEVICE, 256, 0, 4⟩ =
      .error .WHOLEMEMORY_NOT_SUPPORTED :=
  ⟨(global_pointer_reference_support _ (by decide)).1.mpr (Or.inl rfl),
   (global_pointer_reference_support
      ⟨1024, .WHOLEMEMORY_MT_CHUNKED, .WHOLEMEMORY_ML_DEVICE, 256, 0, 4⟩
      (by decide)).2.1 (by decide),
   (global_pointer_reference_support _ (by decide)).2.2.2 rfl⟩

/-- C7: for a live handle of distributed type, `wholememory_get_rank_memory`
fails with NotSupported whenever the requested rank is not the calling
rank's own; for continuous and chunked handles, and for the caller's own
rank on any type, it returns the requested rank's partition size and
offset (the pointer itself is a machine address outside the embedding). -/
theorem rank_memory_distributed_support (h : wholememory_handle_) (r : Nat)
    (hl : h.live) :
    (h.memory_type = .WHOLEMEMORY_MT_DISTRIBUTED → r ≠ h.comm_rank →
      wholememory_get_rank_memory h r = .error .WHOLEMEMORY_NOT_SUPPORTED) ∧
    ((h.memory_type = .WHOLEMEMORY_MT_CONTINUOUS ∨
      h.memory_type = .WHOLEMEMORY_MT_CHUNKED ∨ r = h.comm_rank) →
      wholememory_get_rank_memory h r =
        .ok (rank_partition_size h.total_size h.data_granularity
              h.comm_world_size r,
            rank_partition_offset h.total_size h.data_granularity
              h.comm_world_size r)) := by
  unfold wholememory_get_rank_memory
  constructor
  · intro hd hr
    rw [if_pos ⟨hd, hr⟩]
  · intro hc
    rw [if_neg]
    rintro ⟨hd, hr⟩
    rcases hc with hc | hc | hc
    · rw [hd] at hc; exact absurd hc (by decide)
    · rw [hd] at hc; exact absurd hc (by decide)
    · exact hr hc

theorem rank_memory_distributed_support_witness :
    wholememory_get_rank_memory
      ⟨10, .WHOLEMEMORY_MT_DISTRIBUTED, .WHOLEMEMORY_ML_DEVICE, 1, 0, 3⟩ 1 =
      .error .WHOLEMEMORY_NOT_SUPPORTED ∧
    wholememory_get_rank_memory
      ⟨10, .WHOLEMEMORY_MT_CHUNKED, .WHOLEMEMORY_ML_DEVICE, 1, 0, 3⟩ 2 =
      .ok (rank_partition_size 10 1 3 2, rank_partition_offset 10 1 3 2) :=
  ⟨(rank_memory_distributed_support _ 1 (by decide)).1 rfl (by decide),
   (rank_memory_distributed_support
      ⟨10, .WHOLEMEMORY_MT_CHUNKED, .WHOLEMEMORY_ML_DEVICE, 1, 0, 3⟩ 2
      (by decide)).2 (Or.inr (Or.inl rfl))⟩

/-- C8: `wholememory_load_from_file` fails with InvalidInput whenever
`file_entry_size > memory_entry_size`; when it succeeds, only the first
`file_entry_size` bytes of each memory entry can be written — every byte at
entry position `j` with `file_entry_size <= j < memory_entry_size`, and
every byte below `memory_offset`, keeps its previous contents. -/
theorem load_from_file_entry_bytes (mem : Nat → Nat)
    (memory_offset memory_entry_size file_entry_size : Nat) (data : List Nat) :
    (memory_entry_size < file_entry_size →
      wholememory_load_from_file mem memory_offset memory_entry_size
        file_entry_size data = .error .WHOLEMEMORY_INVALID_INPUT) ∧
    (file_entry_size ≤ memory_entry_size →
      wholememory_load_from_file mem memory_offset memory_entry_size
        file_entry_size data =
      .ok (load_entries mem memory_offset memory_entry_size
        file_entry_size data)) ∧
    (∀ e j, file_entry_size ≤ j → j < memory_entry_size →
      load_entries mem memory_offset memory_entry_size file_entry_size data
        (memory_offset + (e * memory_entry_size + j)) =
      mem (memory_offset + (e * memory_entry_size + j))) ∧
    (∀ a, a < memory_offset →
      load_entries mem memory_offset memory_entry_size file_entry_size data a =
      mem a) := by
  refine ⟨fun hlt => ?_, fun hle => ?_, fun e j hj1 hj2 => ?_, fun a ha => ?_⟩
  · unfold wholememory_load_from_file
    rw [if_pos hlt]
  · unfold wholememory_load_from_file
    rw [if_neg (Nat.not_lt.mpr hle)]
  · unfold load_entries
    have hmod : (e * memory_entry_size + j) % memory_entry_size = j := by
      rw [Nat.mul_comm, Nat.mul_add_mod, Nat.mod_eq_of_lt hj2]
    rw [if_pos (Nat.le_add_right _ _), Nat.add_sub_cancel_left, if_neg]
    rw [hmod]
    exact fun hc => absurd hc.1 (Nat.not_lt.mpr hj1)
  · unfold load_entries
    rw [if_neg (Nat.not_le.mpr ha)]

theorem load_from_file_entry_bytes_witness :
    wholememory_load_from_file (fun _ => 9) 0 2 3 [1, 2, 3] =
      .error .WHOLEMEMORY_INVALID_INPUT ∧
    wholememory_load_from_file (fun _ => 9) 4 4 2 [10, 20, 30] =
      .ok (load_entries (fun _ => 9) 4 4 2 [10, 20, 30]) ∧
    load_entries (fun _ => 9) 4 4 2 [10, 20, 30] (4 + (1 * 4 + 3)) = 9 :=
  ⟨(load_from_file_entry_bytes (fun _ => 9) 0 2 3 [1, 2, 3]).1 (by decide),
   (load_from_file_entry_bytes (fun _ => 9) 4 4 2 [10, 20, 30]).2.1 (by decide),
   (load_from_file_entry_bytes (fun _ => 9) 4 4 2 [10, 20, 30]).2.2.1 1 3
     (by decide) (by decide)⟩

/-- C9: `wholememory_error_code_t` enumerates exactly ten distinct values
with `WHOLEMEMORY_SUCCESS` carrying the numeric value 0; every value of the
type is one of the ten listed codes (so a fallible operation such as the
partition planner can surface no other outcome). -/
theorem error_code_enumeration :
    (∀ c : wholememory_error_code_t, c ∈ wholememory_error_code_values) ∧
    wholememory_error_code_values.Nodup ∧
    wholememory_error_code_values.length = 10 ∧
    errorCodeVal .WHOLEMEMORY_SUCCESS = 0 ∧
    Function.Injective errorCodeVal ∧
    ∀ (total granularity : Nat) (world_size : Int)
      (c : wholememory_error_code_t),
      wholememory_determine_partition_plan total granularity world_size =
        .error c → c ∈ wholememory_error_code_values := by
  have hmem : ∀ c : wholememory_error_code_t,
      c ∈ wholememory_error_code_values := by decide
  exact ⟨hmem, by decide, by decide, rfl, by decide,
    fun _ _ _ c _ => hmem c⟩

theorem error_code_enumeration_witness :
    wholememory_error_code_t.WHOLEMEMORY_INVALID_VALUE ∈
      wholememory_error_code_values :=
  error_code_enumeration.2.2.2.2.2 100 0 4 .WHOLEMEMORY_INVALID_VALUE
    (by decide)

/-- C10: the `WHOLEMEMORY_RETURN_ON_FAIL` model applies its argument's
state transformer exactly once (the final state is one application of `X`,
matching the single `auto err = X` evaluation in the macro); when the
resulting code is `WHOLEMEMORY_SUCCESS` it falls through, and otherwise the
enclosing function returns that exact code, so the first failing sub-call's
error code is propagated verbatim. -/
theorem return_on_fail_propagation {σ : Type}
    (X : σ → σ × wholememory_error_code_t) (s : σ) :
    (WHOLEMEMORY_RETURN_ON_FAIL X s).1 = (X s).1 ∧
    ((X s).2 = .WHOLEMEMORY_SUCCESS →
      (WHOLEMEMORY_RETURN_ON_FAIL X s).2 = .ok ()) ∧
    ((X s).2 ≠ .WHOLEMEMORY_SUCCESS →
      (WHOLEMEMORY_RETURN_ON_FAIL X s).2 = .error (X s).2) := by
  unfold WHOLEMEMORY_RETURN_ON_FAIL
  refine ⟨rfl, fun hs => ?_, fun hs => ?_⟩
  · simp [hs]
  · simp [hs]

theorem return_on_fail_propagation_witness :
    (WHOLEMEMORY_RETURN_ON_FAIL
      (fun n : Nat => (n + 1, .WHOLEMEMORY_SUCCESS)) 0).2 = .ok () ∧
    (WHOLEMEMORY_RETURN_ON_FAIL
      (fun n : Nat => (n + 1, .WHOLEMEMORY_CUDA_ERROR)) 0).2 =
      .error .WHOLEMEMORY_CUDA_ERROR ∧
    (WHOLEMEMORY_RETURN_ON_FAIL
      (fun n : Nat => (n + 1, .WHOLEMEMORY_CUDA_ERROR)) 0).1 = 1 :=
  ⟨(return_on_fail_propagation
      (fun n : Nat => (n + 1, .WHOLEMEMORY_SUCCESS)) 0).2.1 rfl,
   (return_on_fail_propagation
      (fun n : Nat => (n + 1, .WHOLEMEMORY_CUDA_ERROR)) 0).2.2 (by decide),
   (return_on_fail_propagation
      (fun n : Nat => (n + 1, .WHOLEMEMORY_CUDA_ERROR)) 0).1⟩
